import Mathlib

/-!
Shallow embedding of the measurement engine of `Medidas con IA/APP.py`
(TailorX-api).  Coordinates and measurement values are modelled as rationals;
Python's `math.sqrt` (the only irrational primitive in the source) is passed
to every function that needs it as an explicit parameter `msqrt : ℚ → ℚ`, and
`ratSqrt` instantiates it for concrete evaluations at inputs whose squared
distances are perfect squares, where it coincides with the real square root.
`round(x, n)` is modelled as rounding to the nearest multiple of `10⁻ⁿ`.
Python's `try/except` around each measurement function is modelled by
`Option`-valued landmark access: an out-of-range index aborts the block and
the function returns the measurements accumulated so far, exactly as the
single shared exception handler in the source does.
-/

set_option linter.unusedVariables false

/-- Landmark record as built in `process_image_with_mediapipe` (APP.py lines
49-55): a dict with keys `id`, `x`, `y`, `z`, `visibility`, where `x`, `y`
are already scaled to pixel space. -/
structure Landmark where
  id : Nat
  x : ℚ
  y : ℚ
  z : ℚ
  visibility : ℚ
deriving DecidableEq

/-- Measurement record as stored in the `measurements` dicts of APP.py:
`value`, `confidence`, `description`, `category`. -/
structure Measurement where
  value : ℚ
  confidence : ℚ
  description : String
  category : String
deriving DecidableEq

/-- Python `round(x, 1)` modelled over ℚ: nearest multiple of 1/10. -/
def round1 (q : ℚ) : ℚ := (round (q * 10) : ℚ) / 10

/-- Python `round(x, 2)` modelled over ℚ: nearest multiple of 1/100. -/
def round2 (q : ℚ) : ℚ := (round (q * 100) : ℚ) / 100

/-- Integer square root `⌊√n⌋`, defined by explicit search so that concrete
instances evaluate by `rfl`. -/
def natSqrt (n : Nat) : Nat :=
  ((List.range (n + 1)).filter fun k => k * k ≤ n).length - 1

/-- Computable square root used to instantiate the abstract `msqrt` parameter
in concrete evaluations.  On a perfect-square natural number it agrees with
the real square root, and all concrete inputs below are chosen so that every
squared distance fed to it is a perfect-square natural number. -/
def ratSqrt (q : ℚ) : ℚ := (natSqrt q.num.toNat : ℚ)

/-- APP.py lines 65-67 (`calculate_distance`):
`math.sqrt((point2[0]-point1[0])**2 + (point2[1]-point1[1])**2)`,
with the square root abstracted as `msqrt`. -/
def calculate_distance (msqrt : ℚ → ℚ) (point1 point2 : ℚ × ℚ) : ℚ :=
  msqrt ((point2.1 - point1.1) ^ 2 + (point2.2 - point1.2) ^ 2)

/-- Scale block repeated verbatim in both measurement functions (APP.py lines
76-82 and 164-170): `head_y = min(y of landmarks 0..3)`,
`feet_y = max(y of landmarks 27..30)`, `height_pixels = feet_y - head_y`,
`pixel_to_cm = height_cm / height_pixels if height_pixels > 0 else 0.5`.
`none` models the `IndexError` raised when one of the eight landmarks is
absent; the enclosing `try/except` then returns the measurements accumulated
so far (none at this point, so the function returns the empty dict). -/
def headFeetScale (landmarks : List Landmark) (height_cm : ℚ) : Option ℚ :=
  match landmarks[0]?, landmarks[1]?, landmarks[2]?, landmarks[3]?,
        landmarks[27]?, landmarks[28]?, landmarks[29]?, landmarks[30]? with
  | some l0, some l1, some l2, some l3, some l27, some l28, some l29, some l30 =>
    let head_y := min (min (min l0.y l1.y) l2.y) l3.y
    let feet_y := max (max (max l27.y l28.y) l29.y) l30.y
    let height_pixels := feet_y - head_y
    some (if 0 < height_pixels then height_cm / height_pixels else 0.5)
  | _, _, _, _, _, _, _, _ => none

/-- The y coordinate of landmark `i`, with junk value 0 when absent (used
only in theorem statements under hypotheses making the landmark present). -/
def lmY (landmarks : List Landmark) (i : Nat) : ℚ :=
  ((landmarks[i]?).map Landmark.y).getD 0

/-- The x coordinate of landmark `i` (same convention as `lmY`). -/
def lmX (landmarks : List Landmark) (i : Nat) : ℚ :=
  ((landmarks[i]?).map Landmark.x).getD 0

/-- head_y of the scale block, as a total function. -/
def headY (landmarks : List Landmark) : ℚ :=
  min (min (min (lmY landmarks 0) (lmY landmarks 1)) (lmY landmarks 2)) (lmY landmarks 3)

/-- feet_y of the scale block, as a total function. -/
def feetY (landmarks : List Landmark) : ℚ :=
  max (max (max (lmY landmarks 27) (lmY landmarks 28)) (lmY landmarks 29)) (lmY landmarks 30)

/-- height_pixels of the scale block, as a total function. -/
def pixelHeight (landmarks : List Landmark) : ℚ :=
  feetY landmarks - headY landmarks

/-- The value wrapped by `headFeetScale` when no landmark access fails. -/
def scaleVal (landmarks : List Landmark) (height_cm : ℚ) : ℚ :=
  if 0 < pixelHeight landmarks then height_cm / pixelHeight landmarks else 0.5

/-- Distance between landmarks 11 and 12 (`shoulder_width` in APP.py). -/
def shoulderWidth (msqrt : ℚ → ℚ) (landmarks : List Landmark) : ℚ :=
  calculate_distance msqrt (lmX landmarks 11, lmY landmarks 11)
    (lmX landmarks 12, lmY landmarks 12)

/-- Distance between landmarks 23 and 24 (`cintura_px` / `cadera_px`). -/
def hipWidth (msqrt : ℚ → ℚ) (landmarks : List Landmark) : ℚ :=
  calculate_distance msqrt (lmX landmarks 23, lmY landmarks 23)
    (lmX landmarks 24, lmY landmarks 24)

/-- Formula 5 of `calculate_polera_measurements` (lines 138-150): contorno de
cintura.  `acc` is the measurements dict accumulated by the earlier formulas;
a failed landmark access returns it unchanged (exception caught at line 152). -/
def polera5 (msqrt : ℚ → ℚ) (landmarks : List Landmark) (pixel_to_cm : ℚ)
    (acc : List (String × Measurement)) : List (String × Measurement) :=
  if 24 < landmarks.length then
    match landmarks[23]?, landmarks[24]? with
    | some l23, some l24 =>
      let cintura_px := calculate_distance msqrt (l23.x, l23.y) (l24.x, l24.y)
      let cintura := cintura_px * 2.0 * pixel_to_cm
      acc ++ [("cintura_polera",
        { value := round1 cintura, confidence := 0.8,
          description := "Cintura para ajuste de polera", category := "polera" })]
    | _, _ => acc
  else acc

/-- Formula 4 of `calculate_polera_measurements` (lines 129-136): ancho de
hombros.  Reuses the Python local `shoulder_width` bound by formula 1; it is
threaded through as an `Option`, `none` meaning the name was never bound
(unreachable when the guard holds, since formula 1 has the same guard). -/
def polera4 (msqrt : ℚ → ℚ) (landmarks : List Landmark) (pixel_to_cm : ℚ)
    (shoulder_width : Option ℚ) (acc : List (String × Measurement)) :
    List (String × Measurement) :=
  if 12 < landmarks.length then
    match shoulder_width with
    | some sw =>
      polera5 msqrt landmarks pixel_to_cm
        (acc ++ [("ancho_hombros",
          { value := round1 (sw * pixel_to_cm), confidence := 0.8,
            description := "Ancho de hombros para polera", category := "polera" })])
    | none => acc
  else polera5 msqrt landmarks pixel_to_cm acc

/-- Formula 3 of `calculate_polera_measurements` (lines 117-127): largo de
torso.  Note the source guard is `len(landmarks) > 12` although the formula
also reads landmarks 23 and 24. -/
def polera3 (msqrt : ℚ → ℚ) (landmarks : List Landmark) (pixel_to_cm : ℚ)
    (shoulder_width : Option ℚ) (acc : List (String × Measurement)) :
    List (String × Measurement) :=
  if 12 < landmarks.length then
    match landmarks[11]?, landmarks[12]?, landmarks[23]?, landmarks[24]? with
    | some l11, some l12, some l23, some l24 =>
      let hombro_y := (l11.y + l12.y) / 2
      let cadera_y := (l23.y + l24.y) / 2
      let torso_px := cadera_y - hombro_y
      polera4 msqrt landmarks pixel_to_cm shoulder_width
        (acc ++ [("largo_torso",
          { value := round1 (torso_px * pixel_to_cm), confidence := 0.8,
            description := "Largo de torso para polera", category := "polera" })])
    | _, _, _, _ => acc
  else polera4 msqrt landmarks pixel_to_cm shoulder_width acc

/-- Formula 2 of `calculate_polera_measurements` (lines 99-115): largo de
manga. -/
def polera2 (msqrt : ℚ → ℚ) (landmarks : List Landmark) (pixel_to_cm : ℚ)
    (shoulder_width : Option ℚ) (acc : List (String × Measurement)) :
    List (String × Measurement) :=
  if 16 < landmarks.length then
    match landmarks[11]?, landmarks[15]?, landmarks[12]?, landmarks[16]? with
    | some l11, some l15, some l12, some l16 =>
      let brazo_izq := calculate_distance msqrt (l11.x, l11.y) (l15.x, l15.y)
      let brazo_der := calculate_distance msqrt (l12.x, l12.y) (l16.x, l16.y)
      let manga_promedio := (brazo_izq + brazo_der) / 2
      polera3 msqrt landmarks pixel_to_cm shoulder_width
        (acc ++ [("largo_manga",
          { value := round1 (manga_promedio * pixel_to_cm), confidence := 0.8,
            description := "Largo de manga para polera", category := "polera" })])
    | _, _, _, _ => acc
  else polera3 msqrt landmarks pixel_to_cm shoulder_width acc

/-- Formula 1 of `calculate_polera_measurements` (lines 84-97): contorno de
pecho.  Binds `shoulder_width`, later reused by formula 4. -/
def polera1 (msqrt : ℚ → ℚ) (landmarks : List Landmark) (pixel_to_cm : ℚ) :
    List (String × Measurement) :=
  if 12 < landmarks.length then
    match landmarks[11]?, landmarks[12]? with
    | some l11, some l12 =>
      let shoulder_width := calculate_distance msqrt (l11.x, l11.y) (l12.x, l12.y)
      let pecho := shoulder_width * 2.0 * pixel_to_cm
      polera2 msqrt landmarks pixel_to_cm (some shoulder_width)
        [("pecho_polera",
          { value := round1 pecho, confidence := 0.8,
            description := "Contorno de pecho para polera", category := "polera" })]
    | _, _ => []
  else polera2 msqrt landmarks pixel_to_cm none []

/-- APP.py lines 69-155, `calculate_polera_measurements(landmarks, height_cm,
gender)`: guard `len(landmarks) >= 10`, scale block, then the five polera
formulas inside one shared `try/except`. -/
def calculate_polera_measurements (msqrt : ℚ → ℚ) (landmarks : List Landmark)
    (height_cm : ℚ) (gender : String) : List (String × Measurement) :=
  if 10 ≤ landmarks.length then
    match headFeetScale landmarks height_cm with
    | some pixel_to_cm => polera1 msqrt landmarks pixel_to_cm
    | none => []
  else []

/-- Formula 5 of `calculate_pantalon_measurements` (lines 225-237): contorno
de muslo. -/
def pant5 (msqrt : ℚ → ℚ) (landmarks : List Landmark) (pixel_to_cm : ℚ)
    (acc : List (String × Measurement)) : List (String × Measurement) :=
  if 26 < landmarks.length then
    match landmarks[23]?, landmarks[25]? with
    | some l23, some l25 =>
      let muslo_px := calculate_distance msqrt (l23.x, l23.y) (l25.x, l25.y)
      let contorno_muslo := muslo_px * 1.8 * pixel_to_cm
      acc ++ [("contorno_muslo",
        { value := round1 contorno_muslo, confidence := 0.7,
          description := "Contorno de muslo", category := "pantalon" })]
    | _, _ => acc
  else acc

/-- Formula 4 of `calculate_pantalon_measurements` (lines 213-223): largo de
tiro.  The source guard is `len(landmarks) > 24` although the formula also
reads landmarks 11 and 12. -/
def pant4 (msqrt : ℚ → ℚ) (landmarks : List Landmark) (pixel_to_cm : ℚ)
    (acc : List (String × Measurement)) : List (String × Measurement) :=
  if 24 < landmarks.length then
    match landmarks[23]?, landmarks[24]?, landmarks[11]?, landmarks[12]? with
    | some l23, some l24, some l11, some l12 =>
      let entrepierna_y := (l23.y + l24.y) / 2
      let cintura_y := (l11.y + l12.y) / 2
      let tiro_px := entrepierna_y - cintura_y
      pant5 msqrt landmarks pixel_to_cm
        (acc ++ [("largo_tiro",
          { value := round1 (tiro_px * pixel_to_cm), confidence := 0.7,
            description := "Largo de tiro para pantalón", category := "pantalon" })])
    | _, _, _, _ => acc
  else pant5 msqrt landmarks pixel_to_cm acc

/-- Formula 3 of `calculate_pantalon_measurements` (lines 201-211): largo de
pierna.  Note the subtraction order of the source: `cintura_y - tobillo_y`
(hip minus ankle, in image coordinates where y grows downwards). -/
def pant3 (msqrt : ℚ → ℚ) (landmarks : List Landmark) (pixel_to_cm : ℚ)
    (acc : List (String × Measurement)) : List (String × Measurement) :=
  if 28 < landmarks.length then
    match landmarks[23]?, landmarks[24]?, landmarks[27]?, landmarks[28]? with
    | some l23, some l24, some l27, some l28 =>
      let cintura_y := (l23.y + l24.y) / 2
      let tobillo_y := (l27.y + l28.y) / 2
      let largo_pierna := cintura_y - tobillo_y
      pant4 msqrt landmarks pixel_to_cm
        (acc ++ [("largo_pierna",
          { value := round1 (largo_pierna * pixel_to_cm), confidence := 0.8,
            description := "Largo exterior de pantalón", category := "pantalon" })])
    | _, _, _, _ => acc
  else pant4 msqrt landmarks pixel_to_cm acc

/-- Formula 2 of `calculate_pantalon_measurements` (lines 187-199): cadera de
pantalón. -/
def pant2 (msqrt : ℚ → ℚ) (landmarks : List Landmark) (pixel_to_cm : ℚ)
    (acc : List (String × Measurement)) : List (String × Measurement) :=
  if 24 < landmarks.length then
    match landmarks[23]?, landmarks[24]? with
    | some l23, some l24 =>
      let cadera_px := calculate_distance msqrt (l23.x, l23.y) (l24.x, l24.y)
      let cadera_pantalon := cadera_px * 2.2 * pixel_to_cm
      pant3 msqrt landmarks pixel_to_cm
        (acc ++ [("cadera_pantalon",
          { value := round1 cadera_pantalon, confidence := 0.8,
            description := "Cadera para pantalón", category := "pantalon" })])
    | _, _ => acc
  else pant3 msqrt landmarks pixel_to_cm acc

/-- Formula 1 of `calculate_pantalon_measurements` (lines 172-185): cintura de
pantalón. -/
def pant1 (msqrt : ℚ → ℚ) (landmarks : List Landmark) (pixel_to_cm : ℚ) :
    List (String × Measurement) :=
  if 24 < landmarks.length then
    match landmarks[23]?, landmarks[24]? with
    | some l23, some l24 =>
      let cintura_px := calculate_distance msqrt (l23.x, l23.y) (l24.x, l24.y)
      let cintura_pantalon := cintura_px * 2.0 * pixel_to_cm
      pant2 msqrt landmarks pixel_to_cm
        [("cintura_pantalon",
          { value := round1 cintura_pantalon, confidence := 0.8,
            description := "Cintura para pantalón", category := "pantalon" })]
    | _, _ => []
  else pant2 msqrt landmarks pixel_to_cm []

/-- APP.py lines 157-242, `calculate_pantalon_measurements(landmarks,
height_cm, gender)`: guard `len(landmarks) >= 10`, scale block, then the five
pantalón formulas inside one shared `try/except`. -/
def calculate_pantalon_measurements (msqrt : ℚ → ℚ) (landmarks : List Landmark)
    (height_cm : ℚ) (gender : String) : List (String × Measurement) :=
  if 10 ≤ landmarks.length then
    match headFeetScale landmarks height_cm with
    | some pixel_to_cm => pant1 msqrt landmarks pixel_to_cm
    | none => []
  else []

/-- Inner table for `'female'` in `get_clothing_recommendations`
(APP.py lines 247-272). -/
def female_recs : List (String × List String) :=
  [("Reloj de Arena",
    ["✅ Poleras ajustadas que marquen la cintura",
     "✅ Escotes en V para alargar el torso",
     "✅ Pantalones de tiro medio con corte recto",
     "✅ Jeans bootcut para equilibrar silueta"]),
   ("Triángulo (Pera)",
    ["✅ Poleras con detalles en hombros",
     "✅ Escotes asimétricos para equilibrio",
     "✅ Pantalones bootcut para equilibrar",
     "✅ Evitar poleras ajustadas en cadera"]),
   ("Triángulo Invertido",
    ["✅ Poleras con escotes en V",
     "✅ Evitar hombreras y mangas voluminosas",
     "✅ Pantalones rectos o acampanados",
     "✅ Añadir volumen en parte inferior"]),
   ("Rectángulo",
    ["✅ Poleras que creen ilusión de curvas",
     "✅ Cinturones para definir cintura",
     "✅ Pantalones de tiro alto",
     "✅ Detalles asimétricos en poleras"])]

/-- Inner table for `'male'` in `get_clothing_recommendations`
(APP.py lines 273-298). -/
def male_recs : List (String × List String) :=
  [("Triángulo Invertido (Atlético)",
    ["✅ Poleras semi-ajustadas",
     "✅ Mostrar estructura atlética",
     "✅ Pantalones de corte recto o slim",
     "✅ Evitar poleras demasiado holgadas"]),
   ("Trapezoide",
    ["✅ Casi cualquier estilo de polera funciona",
     "✅ Prendas semi-ajustadas ideales",
     "✅ Pantalones de corte regular o slim",
     "✅ Versatilidad en estilos"]),
   ("Rectángulo",
    ["✅ Poleras que creen estructura",
     "✅ Camisas con detalles verticales",
     "✅ Pantalones de corte regular",
     "✅ Evitar poleras demasiado rectas"]),
   ("Triángulo",
    ["✅ Poleras que añadan volumen superior",
     "✅ Hombreras ligeras en chaquetas",
     "✅ Pantalones rectos o ligeramente holgados",
     "✅ Evitar pantalones ajustados en cadera"])]

/-- Outer `recommendations` dict of `get_clothing_recommendations`
(APP.py lines 246-299), keyed by gender. -/
def recommendations_table : List (String × List (String × List String)) :=
  [("female", female_recs), ("male", male_recs)]

/-- Default list returned by the final `.get(body_type, [...])`
(APP.py lines 301-305). -/
def default_recommendations : List String :=
  ["✅ Prendas versátiles y cómodas",
   "✅ Poleras de ajuste regular",
   "✅ Pantalones de corte clásico"]

/-- APP.py lines 244-305, `get_clothing_recommendations(body_type, gender)`:
`recommendations.get(gender, {}).get(body_type, default)`. -/
def get_clothing_recommendations (body_type gender : String) : List String :=
  ((((recommendations_table.lookup gender).getD []).lookup body_type)).getD
    default_recommendations

/-- The fixed list `body_types` of APP.py line 349, sampled from by
`random.choice` regardless of the supplied gender. -/
def body_types : List String :=
  ["Reloj de Arena", "Triángulo (Pera)", "Triángulo Invertido", "Rectángulo"]

/-- `random.choice(body_types)` (APP.py line 350), modelled by an explicit
random index `i`; for `i < 4` this is exactly the i-th element. -/
def choose_body_type (i : Nat) : String := body_types.getD i ""

/-- The body-type enumeration valid for a gender: the keys of that gender's
row of the static recommendation table. -/
def gender_body_types (gender : String) : List String :=
  ((recommendations_table.lookup gender).getD []).map Prod.fst

/-- The `body_type` object of the response (APP.py lines 360-364). -/
structure BodyTypeInfo where
  type : String
  confidence : ℚ
  characteristic : String
deriving DecidableEq

/-- The JSON response assembled at APP.py lines 356-368. -/
structure Response where
  success : Bool
  polera_measurements : List (String × Measurement)
  pantalon_measurements : List (String × Measurement)
  body_type : BodyTypeInfo
  clothing_recommendations : List String
  landmarks_detected : Nat
  message : String
deriving DecidableEq

/-- APP.py lines 309-371, `analyze_complete_body`, from the point where the
two landmark lists have been produced by the detector (image decoding and
upload validation are outside the embedding).  The two `random` draws are
modelled by explicit parameters: `choice` indexes `body_types` and `u` is the
value drawn by `random.uniform(0.7, 0.9)`. -/
def analyze_complete_body (msqrt : ℚ → ℚ)
    (front_landmarks side_landmarks : List Landmark) (height : ℚ)
    (gender : String) (choice : Nat) (u : ℚ) : Response :=
  let landmarks_detected := front_landmarks.length
  let polera_measurements :=
    calculate_polera_measurements msqrt front_landmarks height gender
  let pantalon_measurements :=
    calculate_pantalon_measurements msqrt front_landmarks height gender
  let body_type := choose_body_type choice
  let clothing_recommendations := get_clothing_recommendations body_type gender
  { success := true
    polera_measurements := polera_measurements
    pantalon_measurements := pantalon_measurements
    body_type :=
      { type := body_type, confidence := round2 u,
        characteristic := "Proporciones detectadas por IA" }
    clothing_recommendations := clothing_recommendations
    landmarks_detected := landmarks_detected
    message := "✅ Sistema calculó " ++ toString polera_measurements.length ++
      " medidas polera y " ++ toString pantalon_measurements.length ++
      " medidas pantalón" }

/-- Generic 31-landmark upright pose used by concrete witnesses: landmark `i`
sits at `(0, i)`.  Head landmarks 0-3 are on top (small y), ankles 27-30 at
the bottom, matching image coordinates.  All squared distances between
landmarks are perfect squares, so `ratSqrt` agrees with the real square root
at every point where it is applied. -/
def wlms : List Landmark :=
  [⟨0, 0, 0, 0, 1⟩, ⟨1, 0, 1, 0, 1⟩, ⟨2, 0, 2, 0, 1⟩, ⟨3, 0, 3, 0, 1⟩,
   ⟨4, 0, 4, 0, 1⟩, ⟨5, 0, 5, 0, 1⟩, ⟨6, 0, 6, 0, 1⟩, ⟨7, 0, 7, 0, 1⟩,
   ⟨8, 0, 8, 0, 1⟩, ⟨9, 0, 9, 0, 1⟩, ⟨10, 0, 10, 0, 1⟩, ⟨11, 0, 11, 0, 1⟩,
   ⟨12, 0, 12, 0, 1⟩, ⟨13, 0, 13, 0, 1⟩, ⟨14, 0, 14, 0, 1⟩, ⟨15, 0, 15, 0, 1⟩,
   ⟨16, 0, 16, 0, 1⟩, ⟨17, 0, 17, 0, 1⟩, ⟨18, 0, 18, 0, 1⟩, ⟨19, 0, 19, 0, 1⟩,
   ⟨20, 0, 20, 0, 1⟩, ⟨21, 0, 21, 0, 1⟩, ⟨22, 0, 22, 0, 1⟩, ⟨23, 0, 23, 0, 1⟩,
   ⟨24, 0, 24, 0, 1⟩, ⟨25, 0, 25, 0, 1⟩, ⟨26, 0, 26, 0, 1⟩, ⟨27, 0, 27, 0, 1⟩,
   ⟨28, 0, 28, 0, 1⟩, ⟨29, 0, 29, 0, 1⟩, ⟨30, 0, 30, 0, 1⟩]

/-- The same pose truncated to 20 landmarks (indices 0-19 present, shoulders
11 and 12 included, landmarks 27-30 absent). -/
def lms20 : List Landmark := wlms.take 20

/-- The same pose truncated to 10 landmarks. -/
def lms10 : List Landmark := wlms.take 10

/-- A degenerate 31-landmark pose with every landmark at the same point, so
`pixel_height = 0`. -/
def zlms : List Landmark :=
  wlms.map fun l => { l with y := 0 }

theorem round1_idem (q : ℚ) : round1 (round1 q) = round1 q := by
  unfold round1
  rw [div_mul_cancel₀ _ (by norm_num : (10:ℚ) ≠ 0), round_intCast]

theorem round1_nonneg {q : ℚ} (hq : 0 ≤ q) : 0 ≤ round1 q := by
  unfold round1
  apply div_nonneg _ (by norm_num)
  have h : (0:ℤ) ≤ round (q * 10) := by
    rw [round_eq]
    apply Int.le_floor.mpr
    push_cast
    linarith
  exact_mod_cast h

theorem round1_eq_of {q : ℚ} {n : ℤ} (h1 : (n : ℚ) ≤ q * 10 + 1/2)
    (h2 : q * 10 + 1/2 < n + 1) : round1 q = (n : ℚ) / 10 := by
  unfold round1
  rw [round_eq]
  congr 1
  have : ⌊q * 10 + 1/2⌋ = n := by
    rw [Int.floor_eq_iff]
    exact ⟨h1, by linarith⟩
  exact_mod_cast this

theorem round2_mem {u : ℚ} (h1 : 0.7 ≤ u) (h2 : u ≤ 0.9) :
    0.7 ≤ round2 u ∧ round2 u ≤ 0.9 := by
  unfold round2
  rw [round_eq]
  have hlo : (70 : ℤ) ≤ ⌊u * 100 + 1/2⌋ := by
    apply Int.le_floor.mpr
    push_cast
    linarith
  have hhi : ⌊u * 100 + 1/2⌋ ≤ 90 := by
    have hfl : ((⌊u * 100 + 1/2⌋ : ℤ) : ℚ) ≤ u * 100 + 1/2 := Int.floor_le _
    have hlt : ((⌊u * 100 + 1/2⌋ : ℤ) : ℚ) < 91 := by linarith
    have hz : ⌊u * 100 + 1/2⌋ < (91 : ℤ) := by exact_mod_cast hlt
    omega
  constructor
  · have h : (70:ℚ) ≤ (⌊u * 100 + 1/2⌋ : ℚ) := by exact_mod_cast hlo
    linarith
  · have h : ((⌊u * 100 + 1/2⌋ : ℚ)) ≤ 90 := by exact_mod_cast hhi
    linarith

theorem scaleVal_nonneg (landmarks : List Landmark) {h : ℚ} (hh : 0 < h) :
    0 ≤ scaleVal landmarks h := by
  unfold scaleVal
  split
  · exact div_nonneg hh.le (le_of_lt (by assumption))
  · norm_num

theorem headFeetScale_none (landmarks : List Landmark) (height_cm : ℚ)
    (hlen : landmarks.length < 31) : headFeetScale landmarks height_cm = none := by
  have h30 : landmarks[30]? = none := by
    rw [List.getElem?_eq_none]
    omega
  unfold headFeetScale
  split <;> simp_all

theorem headFeetScale_eq (landmarks : List Landmark) (height_cm : ℚ)
    (hlen : 31 ≤ landmarks.length) :
    headFeetScale landmarks height_cm = some (scaleVal landmarks height_cm) := by
  have h0 : 0 < landmarks.length := by omega
  have h1 : 1 < landmarks.length := by omega
  have h2 : 2 < landmarks.length := by omega
  have h3 : 3 < landmarks.length := by omega
  have h27 : 27 < landmarks.length := by omega
  have h28 : 28 < landmarks.length := by omega
  have h29 : 29 < landmarks.length := by omega
  have h30 : 30 < landmarks.length := by omega
  simp only [headFeetScale, scaleVal, pixelHeight, feetY, headY, lmY,
    List.getElem?_eq_getElem h0, List.getElem?_eq_getElem h1,
    List.getElem?_eq_getElem h2, List.getElem?_eq_getElem h3,
    List.getElem?_eq_getElem h27, List.getElem?_eq_getElem h28,
    List.getElem?_eq_getElem h29, List.getElem?_eq_getElem h30,
    Option.map_some', Option.getD_some]

/-- With all 31 landmarks present every guard of the polera block passes and
all five measurements are produced, in insertion order. -/
theorem polera1_eval (msqrt : ℚ → ℚ) (landmarks : List Landmark) (pixel_to_cm : ℚ)
    (hlen : 31 ≤ landmarks.length) :
    polera1 msqrt landmarks pixel_to_cm =
      [("pecho_polera",
        { value := round1 (shoulderWidth msqrt landmarks * 2.0 * pixel_to_cm),
          confidence := 0.8, description := "Contorno de pecho para polera",
          category := "polera" }),
       ("largo_manga",
        { value := round1
            ((calculate_distance msqrt (lmX landmarks 11, lmY landmarks 11)
                (lmX landmarks 15, lmY landmarks 15) +
              calculate_distance msqrt (lmX landmarks 12, lmY landmarks 12)
                (lmX landmarks 16, lmY landmarks 16)) / 2 * pixel_to_cm),
          confidence := 0.8, description := "Largo de manga para polera",
          category := "polera" }),
       ("largo_torso",
        { value := round1
            (((lmY landmarks 23 + lmY landmarks 24) / 2 -
              (lmY landmarks 11 + lmY landmarks 12) / 2) * pixel_to_cm),
          confidence := 0.8, description := "Largo de torso para polera",
          category := "polera" }),
       ("ancho_hombros",
        { value := round1 (shoulderWidth msqrt landmarks * pixel_to_cm),
          confidence := 0.8, description := "Ancho de hombros para polera",
          category := "polera" }),
       ("cintura_polera",
        { value := round1 (hipWidth msqrt landmarks * 2.0 * pixel_to_cm),
          confidence := 0.8, description := "Cintura para ajuste de polera",
          category := "polera" })] := by
  have h11 : 11 < landmarks.length := by omega
  have h12 : 12 < landmarks.length := by omega
  have h15 : 15 < landmarks.length := by omega
  have h16 : 16 < landmarks.length := by omega
  have h23 : 23 < landmarks.length := by omega
  have h24 : 24 < landmarks.length := by omega
  have g12 : 12 < landmarks.length := h12
  have g16 : 16 < landmarks.length := h16
  have g24 : 24 < landmarks.length := h24
  simp only [polera1, polera2, polera3, polera4, polera5,
    shoulderWidth, hipWidth, lmX, lmY, calculate_distance,
    List.getElem?_eq_getElem h11, List.getElem?_eq_getElem h12,
    List.getElem?_eq_getElem h15, List.getElem?_eq_getElem h16,
    List.getElem?_eq_getElem h23, List.getElem?_eq_getElem h24,
    if_pos g12, if_pos g16, if_pos g24,
    Option.map_some', Option.getD_some,
    List.cons_append, List.nil_append]

/-- With all 31 landmarks present every guard of the pantalón block passes
and all five measurements are produced, in insertion order. -/
theorem pant1_eval (msqrt : ℚ → ℚ) (landmarks : List Landmark) (pixel_to_cm : ℚ)
    (hlen : 31 ≤ landmarks.length) :
    pant1 msqrt landmarks pixel_to_cm =
      [("cintura_pantalon",
        { value := round1 (hipWidth msqrt landmarks * 2.0 * pixel_to_cm),
          confidence := 0.8, description := "Cintura para pantalón",
          category := "pantalon" }),
       ("cadera_pantalon",
        { value := round1 (hipWidth msqrt landmarks * 2.2 * pixel_to_cm),
          confidence := 0.8, description := "Cadera para pantalón",
          category := "pantalon" }),
       ("largo_pierna",
        { value := round1
            (((lmY landmarks 23 + lmY landmarks 24) / 2 -
              (lmY landmarks 27 + lmY landmarks 28) / 2) * pixel_to_cm),
          confidence := 0.8, description := "Largo exterior de pantalón",
          category := "pantalon" }),
       ("largo_tiro",
        { value := round1
            (((lmY landmarks 23 + lmY landmarks 24) / 2 -
              (lmY landmarks 11 + lmY landmarks 12) / 2) * pixel_to_cm),
          confidence := 0.7, description := "Largo de tiro para pantalón",
          category := "pantalon" }),
       ("contorno_muslo",
        { value := round1
            (calculate_distance msqrt (lmX landmarks 23, lmY landmarks 23)
              (lmX landmarks 25, lmY landmarks 25) * 1.8 * pixel_to_cm),
          confidence := 0.7, description := "Contorno de muslo",
          category := "pantalon" })] := by
  have h11 : 11 < landmarks.length := by omega
  have h12 : 12 < landmarks.length := by omega
  have h23 : 23 < landmarks.length := by omega
  have h24 : 24 < landmarks.length := by omega
  have h25 : 25 < landmarks.length := by omega
  have h27 : 27 < landmarks.length := by omega
  have h28 : 28 < landmarks.length := by omega
  have g24 : 24 < landmarks.length := h24
  have g26 : 26 < landmarks.length := by omega
  have g28 : 28 < landmarks.length := h28
  simp only [pant1, pant2, pant3, pant4, pant5,
    hipWidth, lmX, lmY, calculate_distance,
    List.getElem?_eq_getElem h11, List.getElem?_eq_getElem h12,
    List.getElem?_eq_getElem h23, List.getElem?_eq_getElem h24,
    List.getElem?_eq_getElem h25, List.getElem?_eq_getElem h27,
    List.getElem?_eq_getElem h28,
    if_pos g24, if_pos g26, if_pos g28,
    Option.map_some', Option.getD_some,
    List.cons_append, List.nil_append]

/-- Full evaluation of `calculate_polera_measurements` when all 31 landmarks
are present. -/
theorem calculate_polera_eval (msqrt : ℚ → ℚ) (landmarks : List Landmark)
    (height_cm : ℚ) (gender : String) (hlen : 31 ≤ landmarks.length) :
    calculate_polera_measurements msqrt landmarks height_cm gender =
      polera1 msqrt landmarks (scaleVal landmarks height_cm) := by
  unfold calculate_polera_measurements
  rw [if_pos (by omega : 10 ≤ landmarks.length), headFeetScale_eq _ _ hlen]

/-- Full evaluation of `calculate_pantalon_measurements` when all 31
landmarks are present. -/
theorem calculate_pantalon_eval (msqrt : ℚ → ℚ) (landmarks : List Landmark)
    (height_cm : ℚ) (gender : String) (hlen : 31 ≤ landmarks.length) :
    calculate_pantalon_measurements msqrt landmarks height_cm gender =
      pant1 msqrt landmarks (scaleVal landmarks height_cm) := by
  unfold calculate_pantalon_measurements
  rw [if_pos (by omega : 10 ≤ landmarks.length), headFeetScale_eq _ _ hlen]

/-- When some of landmarks 0-30 is absent the polera function returns the
empty dict: either the `len >= 10` guard fails, or the scale block raises
and the shared handler returns the (still empty) measurements dict. -/
theorem calculate_polera_short (msqrt : ℚ → ℚ) (landmarks : List Landmark)
    (height_cm : ℚ) (gender : String) (hlen : landmarks.length < 31) :
    calculate_polera_measurements msqrt landmarks height_cm gender = [] := by
  unfold calculate_polera_measurements
  by_cases h10 : 10 ≤ landmarks.length
  · rw [if_pos h10, headFeetScale_none _ _ hlen]
  · rw [if_neg h10]

/-- Pantalón analogue of `calculate_polera_short`. -/
theorem calculate_pantalon_short (msqrt : ℚ → ℚ) (landmarks : List Landmark)
    (height_cm : ℚ) (gender : String) (hlen : landmarks.length < 31) :
    calculate_pantalon_measurements msqrt landmarks height_cm gender = [] := by
  unfold calculate_pantalon_measurements
  by_cases h10 : 10 ≤ landmarks.length
  · rw [if_pos h10, headFeetScale_none _ _ hlen]
  · rw [if_neg h10]

theorem ratSqrt_nonneg (q : ℚ) : 0 ≤ ratSqrt q := by
  unfold ratSqrt
  exact_mod_cast Nat.zero_le _

theorem ratSqrt_one : ratSqrt 1 = 1 := by
  have h : natSqrt (1:ℚ).num.toNat = 1 := rfl
  unfold ratSqrt
  rw [h, Nat.cast_one]

theorem ratSqrt_four : ratSqrt 4 = 2 := by
  have h : natSqrt (4:ℚ).num.toNat = 2 := rfl
  unfold ratSqrt
  rw [h]
  norm_num

theorem ratSqrt_sixteen : ratSqrt 16 = 4 := by
  have h : natSqrt (16:ℚ).num.toNat = 4 := rfl
  unfold ratSqrt
  rw [h]
  norm_num

theorem scaleVal_wlms : scaleVal wlms 170 = 17/3 := by
  norm_num [scaleVal, pixelHeight, feetY, headY, max_def, min_def,
    show lmY wlms 0 = 0 from rfl, show lmY wlms 1 = 1 from rfl,
    show lmY wlms 2 = 2 from rfl, show lmY wlms 3 = 3 from rfl,
    show lmY wlms 27 = 27 from rfl, show lmY wlms 28 = 28 from rfl,
    show lmY wlms 29 = 29 from rfl, show lmY wlms 30 = 30 from rfl]

theorem pixelHeight_wlms : pixelHeight wlms = 30 := by
  norm_num [pixelHeight, feetY, headY, max_def, min_def,
    show lmY wlms 0 = 0 from rfl, show lmY wlms 1 = 1 from rfl,
    show lmY wlms 2 = 2 from rfl, show lmY wlms 3 = 3 from rfl,
    show lmY wlms 27 = 27 from rfl, show lmY wlms 28 = 28 from rfl,
    show lmY wlms 29 = 29 from rfl, show lmY wlms 30 = 30 from rfl]

theorem shoulderWidth_wlms : shoulderWidth ratSqrt wlms = 1 := by
  norm_num [shoulderWidth, calculate_distance, ratSqrt_one,
    show lmX wlms 11 = 0 from rfl, show lmX wlms 12 = 0 from rfl,
    show lmY wlms 11 = 11 from rfl, show lmY wlms 12 = 12 from rfl]

theorem hipWidth_wlms : hipWidth ratSqrt wlms = 1 := by
  norm_num [hipWidth, calculate_distance, ratSqrt_one,
    show lmX wlms 23 = 0 from rfl, show lmX wlms 24 = 0 from rfl,
    show lmY wlms 23 = 23 from rfl, show lmY wlms 24 = 24 from rfl]

theorem armLeft_wlms :
    calculate_distance ratSqrt (lmX wlms 11, lmY wlms 11) (lmX wlms 15, lmY wlms 15) = 4 := by
  norm_num [calculate_distance, ratSqrt_sixteen,
    show lmX wlms 11 = 0 from rfl, show lmX wlms 15 = 0 from rfl,
    show lmY wlms 11 = 11 from rfl, show lmY wlms 15 = 15 from rfl]

theorem armRight_wlms :
    calculate_distance ratSqrt (lmX wlms 12, lmY wlms 12) (lmX wlms 16, lmY wlms 16) = 4 := by
  norm_num [calculate_distance, ratSqrt_sixteen,
    show lmX wlms 12 = 0 from rfl, show lmX wlms 16 = 0 from rfl,
    show lmY wlms 12 = 12 from rfl, show lmY wlms 16 = 16 from rfl]

theorem thigh_wlms :
    calculate_distance ratSqrt (lmX wlms 23, lmY wlms 23) (lmX wlms 25, lmY wlms 25) = 2 := by
  norm_num [calculate_distance, ratSqrt_four,
    show lmX wlms 23 = 0 from rfl, show lmX wlms 25 = 0 from rfl,
    show lmY wlms 23 = 23 from rfl, show lmY wlms 25 = 25 from rfl]

theorem round1_pecho : round1 ((34:ℚ)/3) = 113/10 := by
  rw [round1_eq_of (n := 113) (by norm_num) (by norm_num)]
  norm_num

theorem round1_manga : round1 ((68:ℚ)/3) = 227/10 := by
  rw [round1_eq_of (n := 227) (by norm_num) (by norm_num)]
  norm_num

theorem round1_torso : round1 (68:ℚ) = 68 := by
  rw [round1_eq_of (n := 680) (by norm_num) (by norm_num)]
  norm_num

theorem round1_hombros : round1 ((17:ℚ)/3) = 57/10 := by
  rw [round1_eq_of (n := 57) (by norm_num) (by norm_num)]
  norm_num

theorem round1_cadera : round1 ((187:ℚ)/15) = 25/2 := by
  rw [round1_eq_of (n := 125) (by norm_num) (by norm_num)]
  norm_num

theorem round1_pierna : round1 (-((68:ℚ)/3)) = -(227/10) := by
  rw [round1_eq_of (n := -227) (by norm_num) (by norm_num)]
  norm_num

theorem round1_muslo : round1 ((102:ℚ)/5) = 102/5 := by
  rw [round1_eq_of (n := 204) (by norm_num) (by norm_num)]
  norm_num

/-- Fully numeric evaluation of the polera function on the generic pose. -/
theorem polera_wlms :
    calculate_polera_measurements ratSqrt wlms 170 "male" =
      [("pecho_polera",
        { value := 113/10, confidence := 0.8,
          description := "Contorno de pecho para polera", category := "polera" }),
       ("largo_manga",
        { value := 227/10, confidence := 0.8,
          description := "Largo de manga para polera", category := "polera" }),
       ("largo_torso",
        { value := 68, confidence := 0.8,
          description := "Largo de torso para polera", category := "polera" }),
       ("ancho_hombros",
        { value := 57/10, confidence := 0.8,
          description := "Ancho de hombros para polera", category := "polera" }),
       ("cintura_polera",
        { value := 113/10, confidence := 0.8,
          description := "Cintura para ajuste de polera", category := "polera" })] := by
  rw [calculate_polera_eval _ _ _ _ (by decide), polera1_eval _ _ _ (by decide),
    scaleVal_wlms, shoulderWidth_wlms, hipWidth_wlms, armLeft_wlms, armRight_wlms]
  norm_num [show lmY wlms 11 = 11 from rfl, show lmY wlms 12 = 12 from rfl,
    show lmY wlms 23 = 23 from rfl, show lmY wlms 24 = 24 from rfl,
    round1_pecho, round1_manga, round1_torso, round1_hombros]

/-- Fully numeric evaluation of the pantalón function on the generic pose.
Note `largo_pierna` comes out negative: the source subtracts the ankle y
coordinate from the hip y coordinate in image coordinates, where y grows
downwards. -/
theorem pant_wlms :
    calculate_pantalon_measurements ratSqrt wlms 170 "male" =
      [("cintura_pantalon",
        { value := 113/10, confidence := 0.8,
          description := "Cintura para pantalón", category := "pantalon" }),
       ("cadera_pantalon",
        { value := 25/2, confidence := 0.8,
          description := "Cadera para pantalón", category := "pantalon" }),
       ("largo_pierna",
        { value := -227/10, confidence := 0.8,
          description := "Largo exterior de pantalón", category := "pantalon" }),
       ("largo_tiro",
        { value := 68, confidence := 0.7,
          description := "Largo de tiro para pantalón", category := "pantalon" }),
       ("contorno_muslo",
        { value := 102/5, confidence := 0.7,
          description := "Contorno de muslo", category := "pantalon" })] := by
  rw [calculate_pantalon_eval _ _ _ _ (by decide), pant1_eval _ _ _ (by decide),
    scaleVal_wlms, hipWidth_wlms, thigh_wlms]
  norm_num [show lmY wlms 11 = 11 from rfl, show lmY wlms 12 = 12 from rfl,
    show lmY wlms 23 = 23 from rfl, show lmY wlms 24 = 24 from rfl,
    show lmY wlms 27 = 27 from rfl, show lmY wlms 28 = 28 from rfl,
    round1_pecho, round1_cadera, round1_pierna, round1_torso, round1_muslo]

theorem pixelHeight_zlms : pixelHeight zlms = 0 := by
  norm_num [pixelHeight, feetY, headY, max_def, min_def,
    show lmY zlms 0 = 0 from rfl, show lmY zlms 1 = 0 from rfl,
    show lmY zlms 2 = 0 from rfl, show lmY zlms 3 = 0 from rfl,
    show lmY zlms 27 = 0 from rfl, show lmY zlms 28 = 0 from rfl,
    show lmY zlms 29 = 0 from rfl, show lmY zlms 30 = 0 from rfl]

theorem calculate_distance_nonneg {msqrt : ℚ → ℚ}
    (hsq : ∀ q, 0 ≤ q → 0 ≤ msqrt q) (p1 p2 : ℚ × ℚ) :
    0 ≤ calculate_distance msqrt p1 p2 := by
  apply hsq
  positivity

/-- C1: for every landmark list containing indices 0-3 and 27-30 (i.e. at
least 31 landmarks) whose pixel height is strictly positive, the scale factor
used by both `calculate_polera_measurements` and
`calculate_pantalon_measurements` is exactly `height_cm / pixel_height`. -/
theorem c1_scale_exact (msqrt : ℚ → ℚ) (landmarks : List Landmark)
    (height_cm : ℚ) (gender : String) (hlen : 31 ≤ landmarks.length)
    (hph : 0 < pixelHeight landmarks) :
    headFeetScale landmarks height_cm =
      some (height_cm / pixelHeight landmarks) ∧
    calculate_polera_measurements msqrt landmarks height_cm gender =
      polera1 msqrt landmarks (height_cm / pixelHeight landmarks) ∧
    calculate_pantalon_measurements msqrt landmarks height_cm gender =
      pant1 msqrt landmarks (height_cm / pixelHeight landmarks) := by
  have hs : scaleVal landmarks height_cm = height_cm / pixelHeight landmarks := by
    unfold scaleVal
    rw [if_pos hph]
  exact ⟨by rw [headFeetScale_eq _ _ hlen, hs],
         by rw [calculate_polera_eval _ _ _ _ hlen, hs],
         by rw [calculate_pantalon_eval _ _ _ _ hlen, hs]⟩

/-- Witness for C1 at the generic 31-landmark pose with pixel height 30. -/
theorem c1_scale_exact_witness :
    (31 ≤ wlms.length ∧ 0 < pixelHeight wlms) ∧
    (headFeetScale wlms 170 = some (170 / pixelHeight wlms) ∧
     calculate_polera_measurements ratSqrt wlms 170 "male" =
       polera1 ratSqrt wlms (170 / pixelHeight wlms) ∧
     calculate_pantalon_measurements ratSqrt wlms 170 "male" =
       pant1 ratSqrt wlms (170 / pixelHeight wlms)) :=
  ⟨⟨by decide, by rw [pixelHeight_wlms]; norm_num⟩,
   c1_scale_exact ratSqrt wlms 170 "male" (by decide)
     (by rw [pixelHeight_wlms]; norm_num)⟩

/-- Counterexample to C2 as stated: `lms20` has 20 ≥ 10 landmarks and both
shoulders (landmarks 11 and 12, the only inputs of the chest formula besides
the scale) are present, yet `calculate_polera_measurements` returns the empty
set: the index fault raised inside the scale block (landmark 27 is absent)
is caught by the one shared exception handler, which aborts every formula
instead of omitting only the affected one. -/
theorem c2_counterexample :
    10 ≤ lms20.length ∧ 12 < lms20.length ∧
    lms20[11]? = some ⟨11, 0, 11, 0, 1⟩ ∧
    lms20[12]? = some ⟨12, 0, 12, 0, 1⟩ ∧
    calculate_polera_measurements ratSqrt lms20 170 "male" = [] ∧
    calculate_pantalon_measurements ratSqrt lms20 170 "male" = [] :=
  ⟨by decide, by decide, rfl, rfl,
   calculate_polera_short ratSqrt lms20 170 "male" (by decide),
   calculate_pantalon_short ratSqrt lms20 170 "male" (by decide)⟩

/-- C2 amended: each formula's guard checks only the landmark-list length,
and all five formulas share one exception handler with the scale block
(which reads landmarks 0-3 and 27-30 unconditionally); a failure therefore
aborts every remaining formula.  Consequently any list with fewer than 31
landmarks — whichever landmarks it contains — produces empty measurement
sets for both garments, instead of per-formula omission. -/
theorem c2_amended (msqrt : ℚ → ℚ) (landmarks : List Landmark) (height_cm : ℚ)
    (gender : String) (hlen : landmarks.length < 31) :
    calculate_polera_measurements msqrt landmarks height_cm gender = [] ∧
    calculate_pantalon_measurements msqrt landmarks height_cm gender = [] :=
  ⟨calculate_polera_short _ _ _ _ hlen, calculate_pantalon_short _ _ _ _ hlen⟩

/-- Witness for the amended C2 at the 20-landmark pose. -/
theorem c2_amended_witness :
    lms20.length < 31 ∧
    (calculate_polera_measurements ratSqrt lms20 170 "male" = [] ∧
     calculate_pantalon_measurements ratSqrt lms20 170 "male" = []) :=
  ⟨by decide, c2_amended ratSqrt lms20 170 "male" (by decide)⟩

/-- Counterexample to C3 as stated: on the generic upright pose with positive
height 170 cm the measurement `largo_pierna` is produced with the strictly
negative value -22.7: the source computes hip y minus ankle y in image
coordinates, where y grows downwards. -/
theorem c3_counterexample :
    (0:ℚ) < 170 ∧
    List.lookup "largo_pierna"
      (calculate_pantalon_measurements ratSqrt wlms 170 "male") =
      some { value := -227/10, confidence := 0.8,
             description := "Largo exterior de pantalón", category := "pantalon" } ∧
    (-227/10 : ℚ) < 0 := by
  refine ⟨by norm_num, ?_, by norm_num⟩
  rw [pant_wlms]
  rfl

/-- C3 amended: every returned measurement value equals its own rounding to
one decimal place, and every measurement except the three vertical-difference
ones (largo_torso, largo_pierna, largo_tiro) is non-negative whenever the
height is positive and the square root is non-negative on non-negative
inputs.  The three vertical differences can be negative; largo_pierna is
negative for every upright pose. -/
theorem c3_amended (msqrt : ℚ → ℚ) (landmarks : List Landmark) (height_cm : ℚ)
    (gender : String) (hh : 0 < height_cm)
    (hsq : ∀ q, 0 ≤ q → 0 ≤ msqrt q) (p : String × Measurement)
    (hp : p ∈ calculate_polera_measurements msqrt landmarks height_cm gender ++
          calculate_pantalon_measurements msqrt landmarks height_cm gender) :
    round1 p.2.value = p.2.value ∧
    (p.1 ≠ "largo_torso" → p.1 ≠ "largo_pierna" → p.1 ≠ "largo_tiro" →
      0 ≤ p.2.value) := by
  by_cases hlen : 31 ≤ landmarks.length
  · rw [calculate_polera_eval _ _ _ _ hlen, polera1_eval _ _ _ hlen,
      calculate_pantalon_eval _ _ _ _ hlen, pant1_eval _ _ _ hlen] at hp
    have hsc : 0 ≤ scaleVal landmarks height_cm := scaleVal_nonneg _ hh
    have hd : ∀ p1 p2 : ℚ × ℚ, 0 ≤ calculate_distance msqrt p1 p2 :=
      calculate_distance_nonneg hsq
    simp only [List.mem_append, List.mem_cons, List.not_mem_nil, or_false] at hp
    have h2 : (0:ℚ) ≤ 2.0 := by norm_num
    have h22 : (0:ℚ) ≤ 2.2 := by norm_num
    have h18 : (0:ℚ) ≤ 1.8 := by norm_num
    have hhalf : (0:ℚ) ≤ 2 := by norm_num
    rcases hp with (hp | hp | hp | hp | hp) | (hp | hp | hp | hp | hp) <;> subst hp
    · exact ⟨round1_idem _, fun _ _ _ =>
        round1_nonneg (mul_nonneg (mul_nonneg (hd _ _) h2) hsc)⟩
    · exact ⟨round1_idem _, fun _ _ _ =>
        round1_nonneg (mul_nonneg
          (div_nonneg (add_nonneg (hd _ _) (hd _ _)) hhalf) hsc)⟩
    · exact ⟨round1_idem _, fun hne _ _ => absurd rfl hne⟩
    · exact ⟨round1_idem _, fun _ _ _ =>
        round1_nonneg (mul_nonneg (hd _ _) hsc)⟩
    · exact ⟨round1_idem _, fun _ _ _ =>
        round1_nonneg (mul_nonneg (mul_nonneg (hd _ _) h2) hsc)⟩
    · exact ⟨round1_idem _, fun _ _ _ =>
        round1_nonneg (mul_nonneg (mul_nonneg (hd _ _) h2) hsc)⟩
    · exact ⟨round1_idem _, fun _ _ _ =>
        round1_nonneg (mul_nonneg (mul_nonneg (hd _ _) h22) hsc)⟩
    · exact ⟨round1_idem _, fun _ hne _ => absurd rfl hne⟩
    · exact ⟨round1_idem _, fun _ _ hne => absurd rfl hne⟩
    · exact ⟨round1_idem _, fun _ _ _ =>
        round1_nonneg (mul_nonneg (mul_nonneg (hd _ _) h18) hsc)⟩
  · rw [calculate_polera_short _ _ _ _ (by omega),
      calculate_pantalon_short _ _ _ _ (by omega)] at hp
    simp at hp

/-- Witness for the amended C3 at the chest measurement of the generic pose. -/
theorem c3_amended_witness :
    (0:ℚ) < 170 ∧ (∀ q : ℚ, 0 ≤ q → 0 ≤ ratSqrt q) ∧
    (round1 (("pecho_polera",
        ({ value := 113/10, confidence := 0.8,
           description := "Contorno de pecho para polera",
           category := "polera" } : Measurement)).2.value) =
      ("pecho_polera",
        ({ value := 113/10, confidence := 0.8,
           description := "Contorno de pecho para polera",
           category := "polera" } : Measurement)).2.value ∧
     (("pecho_polera" : String) ≠ "largo_torso" →
      ("pecho_polera" : String) ≠ "largo_pierna" →
      ("pecho_polera" : String) ≠ "largo_tiro" → (0:ℚ) ≤ 113/10)) :=
  ⟨by norm_num, fun q _ => ratSqrt_nonneg q,
   c3_amended ratSqrt wlms 170 "male" (by norm_num) (fun q _ => ratSqrt_nonneg q)
     ("pecho_polera",
       { value := 113/10, confidence := 0.8,
         description := "Contorno de pecho para polera", category := "polera" })
     (by rw [List.mem_append]
         left
         rw [polera_wlms]
         exact List.mem_cons_self _ _)⟩

/-- C5: with fewer than 10 landmarks both measurement functions return the
empty measurement set, whatever the landmarks, height and gender. -/
theorem c5_below_threshold (msqrt : ℚ → ℚ) (landmarks : List Landmark)
    (height_cm : ℚ) (gender : String) (hlen : landmarks.length < 10) :
    calculate_polera_measurements msqrt landmarks height_cm gender = [] ∧
    calculate_pantalon_measurements msqrt landmarks height_cm gender = [] := by
  constructor
  · unfold calculate_polera_measurements
    rw [if_neg (by omega)]
  · unfold calculate_pantalon_measurements
    rw [if_neg (by omega)]

/-- Witness for C5 with a 5-landmark list. -/
theorem c5_below_threshold_witness :
    (wlms.take 5).length < 10 ∧
    (calculate_polera_measurements ratSqrt (wlms.take 5) 170 "female" = [] ∧
     calculate_pantalon_measurements ratSqrt (wlms.take 5) 170 "female" = []) :=
  ⟨by decide, c5_below_threshold ratSqrt (wlms.take 5) 170 "female" (by decide)⟩

/-- Counterexample to C4 as stated: with gender "male" and random index 0 the
classification step returns "Reloj de Arena", which is not in the 4-element
male enumeration (the keys of the male row of the recommendation table) —
the hard-coded `body_types` list ignores the supplied gender. -/
theorem c4_counterexample :
    choose_body_type 0 = "Reloj de Arena" ∧
    "Reloj de Arena" ∉ gender_body_types "male" ∧
    gender_body_types "male" =
      ["Triángulo Invertido (Atlético)", "Trapezoide", "Rectángulo", "Triángulo"] := by
  refine ⟨rfl, ?_, rfl⟩
  decide

/-- C4 amended: the classification step always draws from the fixed 4-label
list `body_types` (the female enumeration) regardless of the supplied gender,
and the reported confidence `round2 u` for `u` drawn from [0.7, 0.9] lies in
the closed interval [0.7, 0.9] (both endpoints attainable after rounding). -/
theorem c4_amended (msqrt : ℚ → ℚ) (front_landmarks side_landmarks : List Landmark)
    (height : ℚ) (gender : String) (choice : Nat) (u : ℚ)
    (hc : choice < 4) (h1 : 0.7 ≤ u) (h2 : u ≤ 0.9) :
    (analyze_complete_body msqrt front_landmarks side_landmarks height gender
      choice u).body_type.type ∈ body_types ∧
    0.7 ≤ (analyze_complete_body msqrt front_landmarks side_landmarks height
      gender choice u).body_type.confidence ∧
    (analyze_complete_body msqrt front_landmarks side_landmarks height gender
      choice u).body_type.confidence ≤ 0.9 := by
  have hmem : choose_body_type choice ∈ body_types := by
    interval_cases choice <;> decide
  have hr := round2_mem h1 h2
  exact ⟨hmem, hr.1, hr.2⟩

/-- Witness for the amended C4 at gender "male", index 0, u = 0.8. -/
theorem c4_amended_witness :
    ((0:Nat) < 4 ∧ (0.7:ℚ) ≤ 0.8 ∧ (0.8:ℚ) ≤ 0.9) ∧
    ((analyze_complete_body ratSqrt wlms wlms 170 "male" 0 0.8).body_type.type ∈
      body_types ∧
     0.7 ≤ (analyze_complete_body ratSqrt wlms wlms 170 "male" 0 0.8).body_type.confidence ∧
     (analyze_complete_body ratSqrt wlms wlms 170 "male" 0 0.8).body_type.confidence ≤ 0.9) :=
  ⟨⟨by norm_num, by norm_num, by norm_num⟩,
   c4_amended ratSqrt wlms wlms 170 "male" 0 0.8
     (by norm_num) (by norm_num) (by norm_num)⟩

/-- Counterexample to C6 as stated: `lms10` is missing the foot landmarks
27-30, but the scale does not fall back to 0.5 — no scale is produced at all:
the scale block raises an index fault and the measurement functions return
empty sets without using any scale. -/
theorem c6_counterexample :
    lms10.length < 31 ∧ lms10[27]? = none ∧
    headFeetScale lms10 170 ≠ some 0.5 ∧
    headFeetScale lms10 170 = none := by
  refine ⟨by decide, rfl, ?_, headFeetScale_none _ _ (by decide)⟩
  rw [headFeetScale_none _ _ (by decide)]
  simp

/-- C6 amended: the 0.5 fallback applies exactly when all of landmarks 0-3
and 27-30 are present (at least 31 landmarks) and pixel_height ≤ 0; when one
of those landmarks is absent, no scale is produced — the scale block's index
fault makes both measurement functions return empty sets instead. -/
theorem c6_amended (msqrt : ℚ → ℚ) (landmarks : List Landmark) (height_cm : ℚ)
    (gender : String) :
    (31 ≤ landmarks.length → pixelHeight landmarks ≤ 0 →
      headFeetScale landmarks height_cm = some 0.5 ∧
      calculate_polera_measurements msqrt landmarks height_cm gender =
        polera1 msqrt landmarks 0.5 ∧
      calculate_pantalon_measurements msqrt landmarks height_cm gender =
        pant1 msqrt landmarks 0.5) ∧
    (landmarks.length < 31 →
      headFeetScale landmarks height_cm = none ∧
      calculate_polera_measurements msqrt landmarks height_cm gender = [] ∧
      calculate_pantalon_measurements msqrt landmarks height_cm gender = []) := by
  constructor
  · intro hlen hph
    have hs : scaleVal landmarks height_cm = 0.5 := by
      unfold scaleVal
      rw [if_neg (not_lt.mpr hph)]
    exact ⟨by rw [headFeetScale_eq _ _ hlen, hs],
           by rw [calculate_polera_eval _ _ _ _ hlen, hs],
           by rw [calculate_pantalon_eval _ _ _ _ hlen, hs]⟩
  · intro hlen
    exact ⟨headFeetScale_none _ _ hlen, calculate_polera_short _ _ _ _ hlen,
           calculate_pantalon_short _ _ _ _ hlen⟩

/-- Witness for the amended C6 at the degenerate pose with pixel height 0. -/
theorem c6_amended_witness :
    (31 ≤ zlms.length ∧ pixelHeight zlms ≤ 0) ∧
    (headFeetScale zlms 170 = some 0.5 ∧
     calculate_polera_measurements ratSqrt zlms 170 "male" =
       polera1 ratSqrt zlms 0.5 ∧
     calculate_pantalon_measurements ratSqrt zlms 170 "male" =
       pant1 ratSqrt zlms 0.5) :=
  ⟨⟨by decide, by rw [pixelHeight_zlms]⟩,
   (c6_amended ratSqrt zlms 170 "male").1 (by decide)
     (by rw [pixelHeight_zlms])⟩

/-- C7: the measurement engine is deterministic — the measurement components
of the response are independent of the two random draws (the only randomness
in the endpoint), so two calls on identical landmark lists, height and
gender produce identical measurement sets. -/
theorem c7_deterministic (msqrt : ℚ → ℚ)
    (front_landmarks side_landmarks : List Landmark) (height : ℚ)
    (gender : String) (choice choice2 : Nat) (u u2 : ℚ) :
    (analyze_complete_body msqrt front_landmarks side_landmarks height gender
      choice u).polera_measurements =
      (analyze_complete_body msqrt front_landmarks side_landmarks height gender
        choice2 u2).polera_measurements ∧
    (analyze_complete_body msqrt front_landmarks side_landmarks height gender
      choice u).pantalon_measurements =
      (analyze_complete_body msqrt front_landmarks side_landmarks height gender
        choice2 u2).pantalon_measurements :=
  ⟨rfl, rfl⟩

/-- C9: when the detector finds no person (empty front landmark list) the
analysis completes normally: both measurement sets are empty, the landmark
count is 0 and the success flag is true. -/
theorem c9_empty_detection (msqrt : ℚ → ℚ) (side_landmarks : List Landmark)
    (height : ℚ) (gender : String) (choice : Nat) (u : ℚ) :
    (analyze_complete_body msqrt [] side_landmarks height gender choice
      u).polera_measurements = [] ∧
    (analyze_complete_body msqrt [] side_landmarks height gender choice
      u).pantalon_measurements = [] ∧
    (analyze_complete_body msqrt [] side_landmarks height gender choice
      u).landmarks_detected = 0 ∧
    (analyze_complete_body msqrt [] side_landmarks height gender choice
      u).success = true :=
  ⟨rfl, rfl, rfl, rfl⟩

theorem lookup_eq_some_mem {α β : Type} [BEq α] (l : List (α × β)) (k : α)
    (v : β) (h : l.lookup k = some v) : ∃ k2, (k2, v) ∈ l := by
  induction l with
  | nil => simp [List.lookup] at h
  | cons hd tl ih =>
    obtain ⟨a, b⟩ := hd
    rw [List.lookup] at h
    cases hbeq : (k == a) with
    | true =>
      rw [hbeq] at h
      simp only [Option.some.injEq] at h
      exact ⟨a, by rw [h]; exact List.mem_cons_self _ _⟩
    | false =>
      rw [hbeq] at h
      obtain ⟨k2, hk2⟩ := ih h
      exact ⟨k2, List.mem_cons_of_mem _ hk2⟩

theorem mem_recommendations_table {k : String} {v : List (String × List String)}
    (h : (k, v) ∈ recommendations_table) : v = female_recs ∨ v = male_recs := by
  simp only [recommendations_table, List.mem_cons, List.not_mem_nil, or_false,
    Prod.mk.injEq] at h
  rcases h with ⟨_, hv⟩ | ⟨_, hv⟩
  · exact Or.inl hv
  · exact Or.inr hv

/-- C8: an unrecognized (gender, body_type) pair yields the fixed 3-entry
default list, and `get_clothing_recommendations` never returns an empty
list. -/
theorem c8_default_nonempty (body_type gender : String) :
    (((recommendations_table.lookup gender).getD []).lookup body_type = none →
      get_clothing_recommendations body_type gender = default_recommendations) ∧
    get_clothing_recommendations body_type gender ≠ [] := by
  constructor
  · intro hmiss
    unfold get_clothing_recommendations
    rw [hmiss]
    rfl
  · unfold get_clothing_recommendations
    cases hinner : ((recommendations_table.lookup gender).getD []).lookup body_type with
    | none => simp [default_recommendations]
    | some l =>
      cases houter : recommendations_table.lookup gender with
      | none =>
        rw [houter] at hinner
        simp [List.lookup] at hinner
      | some tbl =>
        rw [houter, Option.getD_some] at hinner
        obtain ⟨k2, hk2⟩ := lookup_eq_some_mem _ _ _ hinner
        obtain ⟨k3, hk3⟩ := lookup_eq_some_mem _ _ _ houter
        have hv := mem_recommendations_table hk3
        have hne : l ≠ [] := by
          rcases hv with hv | hv <;> subst hv
          · exact (by decide : ∀ p ∈ female_recs, p.2 ≠ []) _ hk2
          · exact (by decide : ∀ p ∈ male_recs, p.2 ≠ []) _ hk2
        simpa using hne

/-- Witness for C8 at the unrecognized pair ("alien", "Cuadrado"). -/
theorem c8_default_nonempty_witness :
    ((recommendations_table.lookup "alien").getD []).lookup "Cuadrado" = none ∧
    get_clothing_recommendations "Cuadrado" "alien" = default_recommendations ∧
    get_clothing_recommendations "Cuadrado" "alien" ≠ [] :=
  ⟨rfl, (c8_default_nonempty "Cuadrado" "alien").1 rfl,
   (c8_default_nonempty "Cuadrado" "alien").2⟩

theorem lookup_cintura_polera (e1 e2 e3 e4 e5 : Measurement) :
    List.lookup "cintura_polera"
      [("pecho_polera", e1), ("largo_manga", e2), ("largo_torso", e3),
       ("ancho_hombros", e4), ("cintura_polera", e5)] = some e5 := rfl

theorem lookup_cintura_pantalon (e1 e2 e3 e4 e5 : Measurement) :
    List.lookup "cintura_pantalon"
      [("cintura_pantalon", e1), ("cadera_pantalon", e2), ("largo_pierna", e3),
       ("largo_tiro", e4), ("contorno_muslo", e5)] = some e1 := rfl

/-- C10: whenever both waist measurements are produced on the same landmark
list, height and gender, they are numerically equal — both compute
round1(distance(landmark 23, landmark 24) * 2.0 * scale) with the same
scale. -/
theorem c10_waists_equal (msqrt : ℚ → ℚ) (landmarks : List Landmark)
    (height_cm : ℚ) (gender : String) (m m2 : Measurement)
    (hp : List.lookup "cintura_polera"
      (calculate_polera_measurements msqrt landmarks height_cm gender) = some m)
    (hq : List.lookup "cintura_pantalon"
      (calculate_pantalon_measurements msqrt landmarks height_cm gender) = some m2) :
    m.value = m2.value := by
  by_cases hlen : 31 ≤ landmarks.length
  · rw [calculate_polera_eval _ _ _ _ hlen, polera1_eval _ _ _ hlen,
      lookup_cintura_polera] at hp
    rw [calculate_pantalon_eval _ _ _ _ hlen, pant1_eval _ _ _ hlen,
      lookup_cintura_pantalon] at hq
    simp only [Option.some.injEq] at hp hq
    subst hp hq
    rfl
  · rw [calculate_polera_short _ _ _ _ (by omega)] at hp
    simp [List.lookup] at hp

/-- Witness for C10 at the generic pose: both waists equal 11.3 cm. -/
theorem c10_waists_equal_witness :
    List.lookup "cintura_polera"
      (calculate_polera_measurements ratSqrt wlms 170 "male") =
      some { value := 113/10, confidence := 0.8,
             description := "Cintura para ajuste de polera", category := "polera" } ∧
    List.lookup "cintura_pantalon"
      (calculate_pantalon_measurements ratSqrt wlms 170 "male") =
      some { value := 113/10, confidence := 0.8,
             description := "Cintura para pantalón", category := "pantalon" } ∧
    (Measurement.mk (113/10) 0.8 "Cintura para ajuste de polera" "polera").value =
      (Measurement.mk (113/10) 0.8 "Cintura para pantalón" "pantalon").value := by
  have hA : List.lookup "cintura_polera"
      (calculate_polera_measurements ratSqrt wlms 170 "male") =
      some { value := 113/10, confidence := 0.8,
             description := "Cintura para ajuste de polera", category := "polera" } := by
    rw [polera_wlms]
    rfl
  have hB : List.lookup "cintura_pantalon"
      (calculate_pantalon_measurements ratSqrt wlms 170 "male") =
      some { value := 113/10, confidence := 0.8,
             description := "Cintura para pantalón", category := "pantalon" } := by
    rw [pant_wlms]
    rfl
  exact ⟨hA, hB, c10_waists_equal ratSqrt wlms 170 "male" _ _ hA hB⟩
